import Mathlib

/-!
Verification of the HeroSMS client response-protocol layer.

The development shallowly embeds the response classifier
(`HeroSMSClient.checkForErrors`), the per-operation result decoders
(`getBalance`, `getNumber`, `getStatus`) and the error hierarchy of the
client library.  JavaScript strings are modelled as `List Char`;
JavaScript numbers are modelled exactly by `JsNum` (NaN, signed infinity,
or an exact rational).  On every decimal literal appearing in the claims
(`1.5`, `150.5`, `0`) the IEEE double produced by the real code is exact,
so the rational model agrees with the code there.  Regular-expression
matching is embedded by an explicit leftmost search (`reSearch`) that
mirrors the two patterns used by the source, including the fact that the
dot of a regex does not match line terminators.
-/

namespace HeroSMS

deriving instance DecidableEq for Except

/-- JavaScript strings are modelled as lists of characters. -/
abbrev Str := List Char

/-- Coerce a Lean string literal to the character-list model. -/
def str (s : String) : Str := s.data

/-- Model of a JavaScript number: NaN, a signed infinity, or an exact
rational value. -/
inductive JsNum where
  | nan : JsNum
  | inf : Bool → JsNum
  | num : ℚ → JsNum
deriving DecidableEq

/-- Numeric value of a list of decimal digit characters, most significant
first (the value computed by `parseInt(s, 10)` on an all-digit string). -/
def digitsToNat (l : Str) : Nat :=
  l.foldl (fun acc c => 10 * acc + (c.toNat - 48)) 0

/-- White-space characters skipped by JavaScript `parseFloat`. -/
def isWs (c : Char) : Bool :=
  c = ' ' || c = '\t' || c = '\n' || c = '\r' || c = '\x0b' || c = '\x0c'

/-- Line terminators, which the regex metacharacter dot does not match. -/
def isLineTerm (c : Char) : Bool :=
  c = '\n' || c = '\r' || c = '\u2028' || c = '\u2029'

/-- Exponent part of a JavaScript decimal literal: an optional sign and
digits; an exponent with no digits is not consumed (value 0). -/
def parseExp (t : Str) : Int :=
  match t with
  | '+' :: u =>
      if (u.takeWhile Char.isDigit).isEmpty then 0
      else (digitsToNat (u.takeWhile Char.isDigit) : Int)
  | '-' :: u =>
      if (u.takeWhile Char.isDigit).isEmpty then 0
      else -(digitsToNat (u.takeWhile Char.isDigit) : Int)
  | u =>
      if (u.takeWhile Char.isDigit).isEmpty then 0
      else (digitsToNat (u.takeWhile Char.isDigit) : Int)

/-- Unsigned decimal literal of JavaScript `parseFloat`: integer digits,
an optional fraction, and an optional exponent; `none` when not even one
digit is present (the NaN case). -/
def parseDec (l : Str) : Option ℚ :=
  let ip := l.takeWhile Char.isDigit
  let r1 := l.drop ip.length
  let fp := match r1 with
    | '.' :: t => t.takeWhile Char.isDigit
    | _ => []
  let r2 := match r1 with
    | '.' :: t => t.drop (t.takeWhile Char.isDigit).length
    | _ => r1
  if ip.isEmpty && fp.isEmpty then none
  else
    let num : Int := Int.ofNat (digitsToNat ip * Nat.pow 10 fp.length + digitsToNat fp)
    let den : Nat := Nat.pow 10 fp.length
    let e : Int := match r2 with
      | 'e' :: t => parseExp t
      | 'E' :: t => parseExp t
      | _ => 0
    some (if 0 ≤ e then mkRat (Int.mul num (Int.ofNat (Nat.pow 10 e.toNat))) den
          else mkRat num (Nat.mul den (Nat.pow 10 (Int.neg e).toNat)))

/-- JavaScript `parseFloat`: skip leading white space, read an optional
sign, then the longest valid decimal (or `Infinity`) prefix; NaN when no
valid numeric prefix exists. -/
def parseFloat (s : Str) : JsNum :=
  let t := s.dropWhile isWs
  let neg : Bool := match t with
    | '-' :: _ => true
    | _ => false
  let t2 : Str := match t with
    | '+' :: u => u
    | '-' :: u => u
    | u => u
  if (str "Infinity").isPrefixOf t2 then JsNum.inf neg
  else
    match parseDec t2 with
    | none => JsNum.nan
    | some q => JsNum.num (if neg then mkRat (Int.neg q.num) q.den else q)

/-- JavaScript `String.prototype.split` with a single-character
separator: `"".split(sep)` is `[""]`, separators at either end produce
empty fields. -/
def jsSplit (sep : Char) : Str → List Str
  | [] => [[]]
  | c :: cs =>
    if c = sep then [] :: jsSplit sep cs
    else
      match jsSplit sep cs with
      | [] => [[c]]
      | f :: r => (c :: f) :: r

/-- The expression `response.split(sep)[1]`, with the absent-index case
conflated with the empty string (both are falsy in the `||` defaults the
source applies to it). -/
def secondField (response : Str) : Str := (jsSplit ':' response).getD 1 []

/-- Abstraction of JavaScript number-to-string conversion, used only
inside diagnostic messages (no claim depends on the exact rendering). -/
def jsNumText : JsNum → Str
  | JsNum.nan => str "NaN"
  | JsNum.inf true => str "-Infinity"
  | JsNum.inf false => str "Infinity"
  | JsNum.num q => (toString q.num).data ++ str "/" ++ (toString q.den).data

/-- Model of the `HeroSMSError` class hierarchy of `errors.ts`: the
subclass is recorded in `name`, the two parameterized subclasses carry
their payload in `bannedUntil` resp. `minimumPrice` (`none` elsewhere). -/
structure HeroSMSError where
  name : Str
  code : Str
  message : Str
  rawResponse : Str
  bannedUntil : Option Str
  minimumPrice : Option JsNum
deriving DecidableEq

/-- Constructor of the base class `HeroSMSError`. -/
def mkHeroSMSError (code message rawResponse : Str) : HeroSMSError :=
  ⟨str "HeroSMSError", code, message, rawResponse, none, none⟩

/-- Constructor of `NoNumbersError`. -/
def mkNoNumbersError (rawResponse : Str) : HeroSMSError :=
  ⟨str "NoNumbersError", str "NO_NUMBERS",
   str "No numbers available for the requested service and country",
   rawResponse, none, none⟩

/-- Constructor of `AuthenticationError` (code is BAD_KEY or NO_KEY). -/
def mkAuthenticationError (code rawResponse : Str) : HeroSMSError :=
  ⟨str "AuthenticationError", code,
   if code = str "NO_KEY" then str "API key is missing" else str "API key is invalid",
   rawResponse, none, none⟩

/-- Constructor of `ActivationNotFoundError`. -/
def mkActivationNotFoundError (rawResponse : Str) : HeroSMSError :=
  ⟨str "ActivationNotFoundError", str "NO_ACTIVATION", str "Activation not found",
   rawResponse, none, none⟩

/-- Constructor of `EarlyCancelError`. -/
def mkEarlyCancelError (rawResponse : Str) : HeroSMSError :=
  ⟨str "EarlyCancelError", str "EARLY_CANCEL_DENIED",
   str "Cannot cancel activation within the first 2 minutes",
   rawResponse, none, none⟩

/-- Constructor of `WrongMaxPriceError`; carries the minimum price. -/
def mkWrongMaxPriceError (rawResponse : Str) (minimumPrice : JsNum) : HeroSMSError :=
  ⟨str "WrongMaxPriceError", str "WRONG_MAX_PRICE",
   str "Maximum price is too low. Minimum price: " ++ jsNumText minimumPrice,
   rawResponse, none, some minimumPrice⟩

/-- Constructor of `BannedError`; carries the ban-expiry text. -/
def mkBannedError (rawResponse bannedUntil : Str) : HeroSMSError :=
  ⟨str "BannedError", str "BANNED",
   str "Account is banned until " ++ bannedUntil,
   rawResponse, some bannedUntil, none⟩

/-- The `ERROR_MESSAGES` table of `errors.ts`. -/
def ERROR_MESSAGES (code : Str) : Option Str :=
  if code = str "BAD_ACTION" then some (str "Incorrect action specified")
  else if code = str "BAD_KEY" then some (str "Incorrect API key")
  else if code = str "NO_KEY" then some (str "API key is missing")
  else if code = str "ERROR_SQL" then some (str "Server database error")
  else if code = str "BAD_SERVICE" then some (str "Incorrect service specified")
  else if code = str "BAD_STATUS" then some (str "Incorrect status specified")
  else if code = str "NO_NUMBERS" then some (str "No numbers available")
  else if code = str "NO_ACTIVATION" then some (str "Activation not found")
  else if code = str "WRONG_ACTIVATION_ID" then some (str "Invalid activation ID")
  else if code = str "WRONG_MAX_PRICE" then some (str "Maximum price is too low")
  else if code = str "EARLY_CANCEL_DENIED" then some (str "Cannot cancel within first 2 minutes")
  else if code = str "CHANNELS_LIMIT" then some (str "Account channels limit reached")
  else if code = str "OPERATORS_NOT_FOUND" then some (str "No operators found")
  else if code = str "ORDER_ALREADY_EXISTS" then some (str "Order already exists")
  else if code = str "NO_ACTIVATIONS" then some (str "No activations found")
  else none

/-- The fixed list of fourteen plain error codes scanned by
`checkForErrors`, in declaration order. -/
def errorCodes : List Str :=
  [str "BAD_ACTION", str "BAD_KEY", str "NO_KEY", str "ERROR_SQL", str "BAD_SERVICE",
   str "BAD_STATUS", str "NO_NUMBERS", str "NO_ACTIVATION", str "WRONG_ACTIVATION_ID",
   str "EARLY_CANCEL_DENIED", str "CHANNELS_LIMIT", str "OPERATORS_NOT_FOUND",
   str "ORDER_ALREADY_EXISTS", str "NO_ACTIVATIONS"]

/-- The switch inside the scan loop of `checkForErrors`: maps a matched
code to the error value thrown for it. -/
def dispatchCode (code response : Str) : HeroSMSError :=
  if code = str "NO_NUMBERS" then mkNoNumbersError response
  else if code = str "BAD_KEY" ∨ code = str "NO_KEY" then mkAuthenticationError code response
  else if code = str "NO_ACTIVATION" then mkActivationNotFoundError response
  else if code = str "EARLY_CANCEL_DENIED" then mkEarlyCancelError response
  else mkHeroSMSError code ((ERROR_MESSAGES code).getD code) response

/-- The `for` loop of `checkForErrors`: first code in the list that the
response equals or starts with. -/
def findCode (response : Str) : List Str → Option Str
  | [] => none
  | c :: rest =>
      if response = c || c.isPrefixOf response then some c
      else findCode response rest

/-- `HeroSMSClient.checkForErrors`: `some e` models throwing `e`, `none`
models falling through (success). -/
def checkForErrors (response : Str) : Option HeroSMSError :=
  if (str "BANNED:").isPrefixOf response then
    some (mkBannedError response
      (if secondField response = [] then str "unknown" else secondField response))
  else if (str "WRONG_MAX_PRICE:").isPrefixOf response then
    some (mkWrongMaxPriceError response
      (parseFloat (if secondField response = [] then str "0" else secondField response)))
  else (findCode response errorCodes).map (fun c => dispatchCode c response)

/-- A raw transport body: either a UTF-8 string or already-structured
data of some type. -/
inductive RawBody (α : Type) where
  | text : Str → RawBody α
  | structured : α → RawBody α
deriving DecidableEq

/-- The body-handling part of `HeroSMSClient.request` (lines 97-104):
string bodies are passed to `checkForErrors`, all bodies are then
returned unchanged. -/
def requestClassify {α : Type} : RawBody α → Except HeroSMSError (RawBody α)
  | RawBody.text s =>
      match checkForErrors s with
      | some e => Except.error e
      | none => Except.ok (RawBody.text s)
  | RawBody.structured v => Except.ok (RawBody.structured v)

/-- `request` specialised to the string-typed endpoints. -/
def requestString (s : Str) : Except HeroSMSError Str :=
  match checkForErrors s with
  | some e => Except.error e
  | none => Except.ok s

/-- The literal of the balance regex. -/
def litBalance : Str := str "ACCESS_BALANCE:"

/-- The literal of the number regex. -/
def litNumber : Str := str "ACCESS_NUMBER:"

/-- Leftmost regex search: try a local match at every start position from
the left; mirrors `String.prototype.match` on a non-anchored pattern. -/
def reSearch {β : Type} (p : Str → Option β) : Str → Option β
  | [] => p []
  | c :: cs =>
      match p (c :: cs) with
      | some r => some r
      | none => reSearch p cs

/-- Local match of `/ACCESS_BALANCE:(.+)/` at one position: the literal,
then a maximal nonempty run of non-line-terminator characters (dot does
not match line terminators, plus is greedy). -/
def balanceLocal (t : Str) : Option Str :=
  if litBalance.isPrefixOf t then
    let cap := (t.drop litBalance.length).takeWhile (fun c => !isLineTerm c)
    if cap.isEmpty then none else some cap
  else none

/-- `response.match(/ACCESS_BALANCE:(.+)/)`, returning the capture. -/
def matchBalance (s : Str) : Option Str := reSearch balanceLocal s

/-- `HeroSMSClient.getBalance` decoding step (lines 160-165). -/
def decodeBalance (response : Str) : Except HeroSMSError JsNum :=
  match matchBalance response with
  | some cap => Except.ok (parseFloat cap)
  | none => Except.error (mkHeroSMSError (str "PARSE_ERROR")
      (str "Unexpected balance response: " ++ response) response)

/-- Local match of `/ACCESS_NUMBER:(\d+):(.+)/` at one position: the
literal, a maximal nonempty digit run, a colon, then a maximal nonempty
run of non-line-terminator characters. -/
def numberLocal (t : Str) : Option (Str × Str) :=
  if litNumber.isPrefixOf t then
    let rest := t.drop litNumber.length
    let ds := rest.takeWhile Char.isDigit
    if ds.isEmpty then none
    else
      match rest.drop ds.length with
      | ':' :: r2 =>
          let cap := r2.takeWhile (fun c => !isLineTerm c)
          if cap.isEmpty then none else some (ds, cap)
      | _ => none
  else none

/-- `response.match(/ACCESS_NUMBER:(\d+):(.+)/)`, returning the two
captures. -/
def matchNumber (s : Str) : Option (Str × Str) := reSearch numberLocal s

/-- The success value of `getNumber` (`ParsedNumberResponse`). -/
structure ParsedNumberResponse where
  activationId : Nat
  phoneNumber : Str
deriving DecidableEq

/-- `HeroSMSClient.getNumber` decoding step (lines 188-196). -/
def decodeNumber (response : Str) : Except HeroSMSError ParsedNumberResponse :=
  match matchNumber response with
  | some (ds, phone) => Except.ok ⟨digitsToNat ds, phone⟩
  | none => Except.error (mkHeroSMSError (str "PARSE_ERROR")
      (str "Unexpected number response: " ++ response) response)

/-- The five status variants of `ParsedStatusResponse.status`. -/
inductive StatusVariant where
  | statusOk
  | statusWaitRetry
  | statusWaitCode
  | statusWaitResend
  | statusCancel
deriving DecidableEq

/-- The success value of `getStatus`; `code = none` models the `code`
field being absent from the returned object. -/
structure ParsedStatusResponse where
  status : StatusVariant
  code : Option Str
deriving DecidableEq

/-- `HeroSMSClient.getStatus` decoding step (lines 271-288). -/
def decodeStatus (response : Str) : Except HeroSMSError ParsedStatusResponse :=
  if (str "STATUS_OK:").isPrefixOf response then
    Except.ok ⟨StatusVariant.statusOk, (jsSplit ':' response)[1]?⟩
  else if (str "STATUS_WAIT_RETRY:").isPrefixOf response then
    Except.ok ⟨StatusVariant.statusWaitRetry, (jsSplit ':' response)[1]?⟩
  else if response = str "STATUS_WAIT_CODE" then
    Except.ok ⟨StatusVariant.statusWaitCode, none⟩
  else if response = str "STATUS_WAIT_RESEND" then
    Except.ok ⟨StatusVariant.statusWaitResend, none⟩
  else if response = str "STATUS_CANCEL" then
    Except.ok ⟨StatusVariant.statusCancel, none⟩
  else Except.error (mkHeroSMSError (str "PARSE_ERROR")
      (str "Unexpected status response: " ++ response) response)

/-- The structured success value of `getNumberV2` (`types.ts`). -/
structure GetNumberV2Response where
  activationId : ℚ
  phoneNumber : Str
  activationCost : ℚ
  currency : ℚ
  countryCode : Str
  canGetAnotherSms : Str
  activationTime : Str
  activationOperator : Str
deriving DecidableEq

/-- SMS information inside `ActivationStatusV2` (`types.ts`). -/
structure SmsInfo where
  dateTime : Str
  code : Str
  text : Str
deriving DecidableEq

/-- Call information inside `ActivationStatusV2` (`types.ts`). -/
structure CallInfo where
  callFrom : Str
  text : Str
  code : Str
  dateTime : Str
  url : Str
  parsingCount : ℚ
deriving DecidableEq

/-- The structured success value of `getStatusV2` (`types.ts`). -/
structure ActivationStatusV2 where
  verificationType : ℚ
  sms : SmsInfo
  call : CallInfo
deriving DecidableEq

/-- Modelled from the spec: the wire-format grammar `<float>`/`<decimal>`
of the success table (an optional sign, decimal digits with at most one
decimal point, and at least one digit).  This definition follows the
words of the spec, not the source, and serves only to compare the claimed
grammar with the behaviour of the embedded code. -/
def isDecimalLit (s : Str) : Bool :=
  let t : Str := match s with
    | '+' :: u => u
    | '-' :: u => u
    | u => u
  let ip := t.takeWhile Char.isDigit
  match t.drop ip.length with
  | [] => !ip.isEmpty
  | '.' :: f => (!ip.isEmpty || !f.isEmpty) && f.all Char.isDigit
  | _ => false

/-- Modelled from the spec: a body matching the grammar
`ACCESS_BALANCE:<float>` of the spec, as a whole-body match. -/
def balanceGrammar (s : Str) : Bool :=
  litBalance.isPrefixOf s && isDecimalLit (s.drop litBalance.length)

/-- Modelled from the spec: a body matching the grammar
`ACCESS_NUMBER:<digits>:<rest>` of the spec, as a whole-body match. -/
def numberGrammar (s : Str) : Bool :=
  litNumber.isPrefixOf s &&
    (let rest := s.drop litNumber.length
     let ds := rest.takeWhile Char.isDigit
     !ds.isEmpty &&
       (match rest.drop ds.length with
        | ':' :: _ => true
        | _ => false))

/-! ### Helper lemmas about the embedded string primitives -/

theorem isPrefixOf_iff_exists : ∀ (a t : Str), a.isPrefixOf t = true ↔ ∃ u, t = a ++ u := by
  intro a
  induction a with
  | nil => intro t; simp [List.isPrefixOf]
  | cons c cs ih =>
    intro t
    cases t with
    | nil => simp [List.isPrefixOf]
    | cons d ds =>
      simp only [List.isPrefixOf, Bool.and_eq_true, beq_iff_eq, List.cons_append,
        List.cons.injEq, ih ds]
      constructor
      · rintro ⟨h1, u, h2⟩; exact ⟨u, h1.symm, h2⟩
      · rintro ⟨u, h1, h2⟩; exact ⟨h1.symm, u, h2⟩

theorem isPrefixOf_append_self (a r : Str) : a.isPrefixOf (a ++ r) = true :=
  (isPrefixOf_iff_exists a (a ++ r)).2 ⟨r, rfl⟩

theorem isPrefixOf_append_of_le :
    ∀ (a b r : Str), a.length ≤ b.length → a.isPrefixOf (b ++ r) = a.isPrefixOf b := by
  intro a
  induction a with
  | nil => intro b r _; simp [List.isPrefixOf]
  | cons c cs ih =>
    intro b r h
    cases b with
    | nil => simp at h
    | cons d ds =>
      simp only [List.cons_append, List.isPrefixOf, List.append_eq]
      rw [ih ds r (by simpa using h)]

theorem jsSplit_cons_head (sep : Char) :
    ∀ l : Str, ∃ r, jsSplit sep l = (l.takeWhile (fun c => c != sep)) :: r := by
  intro l
  induction l with
  | nil => exact ⟨[], rfl⟩
  | cons c cs ih =>
    by_cases h : c = sep
    · refine ⟨jsSplit sep cs, ?_⟩
      simp [jsSplit, h, List.takeWhile_cons]
    · obtain ⟨r, hr⟩ := ih
      exact ⟨r, by simp [jsSplit, h, hr, List.takeWhile_cons]⟩

theorem jsSplit_append (sep : Char) :
    ∀ (pre rest : Str), (∀ c ∈ pre, c ≠ sep) →
      jsSplit sep (pre ++ sep :: rest) = pre :: jsSplit sep rest := by
  intro pre
  induction pre with
  | nil => intro rest _; simp [jsSplit]
  | cons c cs ih =>
    intro rest h
    have hc : c ≠ sep := h c (by simp)
    have hrec := ih rest (fun x hx => h x (by simp [hx]))
    simp [jsSplit, hc, hrec]

theorem secondField_append (lit rest : Str) (h : ∀ c ∈ lit, c ≠ ':') :
    secondField (lit ++ ':' :: rest) = rest.takeWhile (fun c => c != ':') := by
  obtain ⟨r, hr⟩ := jsSplit_cons_head ':' rest
  simp [secondField, jsSplit_append ':' lit rest h, hr, List.getD]

theorem jsSplit_get1 (lit rest : Str) (h : ∀ c ∈ lit, c ≠ ':') :
    (jsSplit ':' (lit ++ ':' :: rest))[1]? = some (rest.takeWhile (fun c => c != ':')) := by
  obtain ⟨r, hr⟩ := jsSplit_cons_head ':' rest
  simp [jsSplit_append ':' lit rest h, hr]

theorem reSearch_of_here {β : Type} (p : Str → Option β) (l : Str) {r : β}
    (h : p l = some r) : reSearch p l = some r := by
  cases l with
  | nil => simpa [reSearch] using h
  | cons c cs => simp [reSearch, h]

theorem reSearch_isSome_iff {β : Type} (p : Str → Option β) :
    ∀ l : Str, (reSearch p l).isSome = true ↔
      ∃ pre t, pre ++ t = l ∧ (p t).isSome = true := by
  intro l
  induction l with
  | nil =>
    constructor
    · intro h; exact ⟨[], [], rfl, by simpa [reSearch] using h⟩
    · rintro ⟨pre, t, hpt, h⟩
      obtain ⟨h1, h2⟩ := List.append_eq_nil.mp hpt
      subst h2
      simpa [reSearch] using h
  | cons c cs ih =>
    cases hp : p (c :: cs) with
    | some r =>
      simp only [reSearch, hp]
      exact ⟨fun _ => ⟨[], c :: cs, rfl, by simp [hp]⟩, fun _ => rfl⟩
    | none =>
      simp only [reSearch, hp]
      rw [ih]
      constructor
      · rintro ⟨pre, t, hpt, h⟩; exact ⟨c :: pre, t, by simp [hpt], h⟩
      · rintro ⟨pre, t, hpt, h⟩
        cases pre with
        | nil =>
          simp only [List.nil_append] at hpt
          rw [hpt, hp] at h
          simp at h
        | cons d ds =>
          simp only [List.cons_append, List.cons.injEq] at hpt
          exact ⟨ds, t, hpt.2, h⟩

theorem drop_length_takeWhile (p : Char → Bool) :
    ∀ l : Str, l.drop (l.takeWhile p).length = l.dropWhile p := by
  intro l
  induction l with
  | nil => rfl
  | cons c cs ih =>
    by_cases h : p c
    · simp [List.takeWhile_cons, List.dropWhile_cons, h, ih]
    · simp [List.takeWhile_cons, List.dropWhile_cons, h]

theorem takeWhile_append_cons (p : Char → Bool) :
    ∀ (a : Str) (c : Char) (b : Str), (∀ x ∈ a, p x = true) → p c = false →
      (a ++ c :: b).takeWhile p = a := by
  intro a
  induction a with
  | nil => intro c b _ hc; simp [List.takeWhile_cons, hc]
  | cons d ds ih =>
    intro c b ha hc
    have hd : p d = true := ha d (by simp)
    simp [List.takeWhile_cons, hd, ih c b (fun x hx => ha x (by simp [hx])) hc]

theorem balanceLocal_at_zero (rest : Str) (h1 : rest ≠ [])
    (h2 : ∀ c ∈ rest, isLineTerm c = false) :
    balanceLocal (litBalance ++ rest) = some rest := by
  have hp := isPrefixOf_append_self litBalance rest
  have ht : rest.takeWhile (fun c => !isLineTerm c) = rest :=
    List.takeWhile_eq_self_iff.mpr (fun x hx => by simp [h2 x hx])
  simp [balanceLocal, hp, List.drop_left, ht, h1]

theorem balanceLocal_isSome_iff (t : Str) :
    (balanceLocal t).isSome = true ↔
      ∃ rest, t = litBalance ++ rest ∧
        rest.takeWhile (fun c => !isLineTerm c) ≠ [] := by
  unfold balanceLocal
  by_cases hp : litBalance.isPrefixOf t = true
  · obtain ⟨u, hu⟩ := (isPrefixOf_iff_exists _ _).mp hp
    subst hu
    simp only [hp, if_true, List.drop_left]
    by_cases hc : (u.takeWhile (fun c => !isLineTerm c)).isEmpty = true
    · rw [if_pos hc]
      simp only [List.isEmpty_eq_true] at hc
      constructor
      · intro h; simp at h
      · rintro ⟨rest, hrest, hne⟩
        rw [List.append_cancel_left_eq] at hrest
        subst hrest
        exact absurd hc hne
    · rw [if_neg hc]
      have hc2 : u.takeWhile (fun c => !isLineTerm c) ≠ [] := by simpa using hc
      exact ⟨fun _ => ⟨u, rfl, hc2⟩, fun _ => rfl⟩
  · simp only [Bool.not_eq_true] at hp
    simp only [hp, Bool.false_eq_true, if_false]
    constructor
    · intro h; simp at h
    · rintro ⟨rest, hrest, _⟩
      subst hrest
      rw [isPrefixOf_append_self] at hp
      simp at hp

theorem numberLocal_at_zero (digits phone : Str) (hd1 : digits ≠ [])
    (hd2 : ∀ c ∈ digits, c.isDigit = true) (hp1 : phone ≠ [])
    (hp2 : ∀ c ∈ phone, isLineTerm c = false) :
    numberLocal (litNumber ++ (digits ++ ':' :: phone)) = some (digits, phone) := by
  have hp := isPrefixOf_append_self litNumber (digits ++ ':' :: phone)
  have hds : (digits ++ ':' :: phone).takeWhile Char.isDigit = digits :=
    takeWhile_append_cons Char.isDigit digits ':' phone hd2 (by decide)
  have hdrop : (digits ++ ':' :: phone).drop digits.length = ':' :: phone :=
    List.drop_left digits (':' :: phone)
  have hcap : phone.takeWhile (fun c => !isLineTerm c) = phone :=
    List.takeWhile_eq_self_iff.mpr (fun x hx => by simp [hp2 x hx])
  simp [numberLocal, hp, List.drop_left, hds, hdrop, hcap, hd1, hp1]

theorem numberLocal_isSome_iff (t : Str) :
    (numberLocal t).isSome = true ↔
      ∃ digits rest, t = litNumber ++ (digits ++ ':' :: rest) ∧ digits ≠ [] ∧
        (∀ c ∈ digits, c.isDigit = true) ∧
        rest.takeWhile (fun c => !isLineTerm c) ≠ [] := by
  unfold numberLocal
  by_cases hp : litNumber.isPrefixOf t = true
  · obtain ⟨u, hu⟩ := (isPrefixOf_iff_exists _ _).mp hp
    subst hu
    simp only [hp, if_true, List.drop_left]
    constructor
    · intro h
      by_cases hds : (u.takeWhile Char.isDigit).isEmpty = true
      · rw [if_pos hds] at h; simp at h
      · rw [if_neg hds] at h
        split at h
        · rename_i r2 heq
          by_cases hcap : (r2.takeWhile (fun c => !isLineTerm c)).isEmpty = true
          · rw [if_pos hcap] at h; simp at h
          · refine ⟨u.takeWhile Char.isDigit, r2, ?_, by simpa using hds,
              fun x hx => List.mem_takeWhile_imp hx, by simpa using hcap⟩
            rw [List.append_cancel_left_eq]
            conv_lhs => rw [← List.takeWhile_append_dropWhile Char.isDigit u]
            rw [← drop_length_takeWhile Char.isDigit u, heq]
        · simp at h
    · rintro ⟨digits, rest, hu, hd1, hd2, hcap⟩
      rw [List.append_cancel_left_eq] at hu
      subst hu
      have hds : (digits ++ ':' :: rest).takeWhile Char.isDigit = digits :=
        takeWhile_append_cons Char.isDigit digits ':' rest hd2 (by decide)
      have hdrop : (digits ++ ':' :: rest).drop digits.length = ':' :: rest :=
        List.drop_left digits (':' :: rest)
      rw [hds, hdrop]
      simp [hd1, hcap]
  · simp only [Bool.not_eq_true] at hp
    simp only [hp, Bool.false_eq_true, if_false]
    constructor
    · intro h; simp at h
    · rintro ⟨digits, rest, hrest, _⟩
      subst hrest
      rw [isPrefixOf_append_self] at hp
      simp at hp

theorem matchBalance_at_zero (rest : Str) (h1 : rest ≠ [])
    (h2 : ∀ c ∈ rest, isLineTerm c = false) :
    matchBalance (litBalance ++ rest) = some rest :=
  reSearch_of_here balanceLocal _ (balanceLocal_at_zero rest h1 h2)

theorem decodeBalance_ok_iff (s : Str) :
    (∃ v, decodeBalance s = Except.ok v) ↔
      ∃ pre rest, s = pre ++ (litBalance ++ rest) ∧
        rest.takeWhile (fun c => !isLineTerm c) ≠ [] := by
  have hm : (∃ v, decodeBalance s = Except.ok v) ↔ (matchBalance s).isSome = true := by
    unfold decodeBalance
    cases hmb : matchBalance s with
    | some cap => simp
    | none => simp
  rw [hm, matchBalance, reSearch_isSome_iff]
  constructor
  · rintro ⟨pre, t, hpt, h⟩
    obtain ⟨rest, hrest, hne⟩ := (balanceLocal_isSome_iff t).mp h
    exact ⟨pre, rest, by rw [← hpt, hrest], hne⟩
  · rintro ⟨pre, rest, hs, hne⟩
    exact ⟨pre, litBalance ++ rest, hs.symm,
      (balanceLocal_isSome_iff _).mpr ⟨rest, rfl, hne⟩⟩

theorem matchNumber_at_zero (digits phone : Str) (hd1 : digits ≠ [])
    (hd2 : ∀ c ∈ digits, c.isDigit = true) (hp1 : phone ≠ [])
    (hp2 : ∀ c ∈ phone, isLineTerm c = false) :
    matchNumber (litNumber ++ (digits ++ ':' :: phone)) = some (digits, phone) :=
  reSearch_of_here numberLocal _ (numberLocal_at_zero digits phone hd1 hd2 hp1 hp2)

theorem decodeNumber_ok_iff (s : Str) :
    (∃ v, decodeNumber s = Except.ok v) ↔
      ∃ pre digits rest, s = pre ++ (litNumber ++ (digits ++ ':' :: rest)) ∧
        digits ≠ [] ∧ (∀ c ∈ digits, c.isDigit = true) ∧
        rest.takeWhile (fun c => !isLineTerm c) ≠ [] := by
  have hm : (∃ v, decodeNumber s = Except.ok v) ↔ (matchNumber s).isSome = true := by
    unfold decodeNumber
    cases hmb : matchNumber s with
    | some cap => simp
    | none => simp
  rw [hm, matchNumber, reSearch_isSome_iff]
  constructor
  · rintro ⟨pre, t, hpt, h⟩
    obtain ⟨digits, rest, hrest, hd1, hd2, hne⟩ := (numberLocal_isSome_iff t).mp h
    exact ⟨pre, digits, rest, by rw [← hpt, hrest], hd1, hd2, hne⟩
  · rintro ⟨pre, digits, rest, hs, hd1, hd2, hne⟩
    exact ⟨pre, litNumber ++ (digits ++ ':' :: rest), hs.symm,
      (numberLocal_isSome_iff _).mpr ⟨digits, rest, rfl, hd1, hd2, hne⟩⟩

theorem dispatchCode_fields (code response : Str) :
    (dispatchCode code response).rawResponse = response ∧
    (dispatchCode code response).bannedUntil = none ∧
    (dispatchCode code response).minimumPrice = none ∧
    (dispatchCode code response).name ≠ str "BannedError" ∧
    (dispatchCode code response).name ≠ str "WrongMaxPriceError" := by
  unfold dispatchCode
  split_ifs
  · exact ⟨rfl, rfl, rfl, (by decide : str "NoNumbersError" ≠ str "BannedError"),
      (by decide : str "NoNumbersError" ≠ str "WrongMaxPriceError")⟩
  · exact ⟨rfl, rfl, rfl, (by decide : str "AuthenticationError" ≠ str "BannedError"),
      (by decide : str "AuthenticationError" ≠ str "WrongMaxPriceError")⟩
  · exact ⟨rfl, rfl, rfl, (by decide : str "ActivationNotFoundError" ≠ str "BannedError"),
      (by decide : str "ActivationNotFoundError" ≠ str "WrongMaxPriceError")⟩
  · exact ⟨rfl, rfl, rfl, (by decide : str "EarlyCancelError" ≠ str "BannedError"),
      (by decide : str "EarlyCancelError" ≠ str "WrongMaxPriceError")⟩
  · exact ⟨rfl, rfl, rfl, (by decide : str "HeroSMSError" ≠ str "BannedError"),
      (by decide : str "HeroSMSError" ≠ str "WrongMaxPriceError")⟩

theorem checkForErrors_fields (s : Str) (e : HeroSMSError)
    (h : checkForErrors s = some e) :
    e.rawResponse = s ∧
    (e.name = str "BannedError" → e.bannedUntil.isSome = true) ∧
    (e.name = str "WrongMaxPriceError" → e.minimumPrice.isSome = true) := by
  unfold checkForErrors at h
  by_cases h1 : (str "BANNED:").isPrefixOf s = true
  · rw [if_pos h1, Option.some.injEq] at h
    subst h
    exact ⟨rfl, fun _ => rfl,
      fun hx => absurd hx (by decide : str "BannedError" ≠ str "WrongMaxPriceError")⟩
  · rw [if_neg h1] at h
    by_cases h2 : (str "WRONG_MAX_PRICE:").isPrefixOf s = true
    · rw [if_pos h2, Option.some.injEq] at h
      subst h
      exact ⟨rfl,
        fun hx => absurd hx (by decide : str "WrongMaxPriceError" ≠ str "BannedError"),
        fun _ => rfl⟩
    · rw [if_neg h2] at h
      cases hf : findCode s errorCodes with
      | none => rw [hf] at h; simp at h
      | some c =>
        rw [hf] at h
        simp at h
        obtain ⟨hr, hb, hm, hn1, hn2⟩ := dispatchCode_fields c s
        rw [← h]
        exact ⟨hr, fun hx => absurd hx hn1, fun hx => absurd hx hn2⟩

theorem decodeBalance_error_raw (s : Str) (e : HeroSMSError)
    (h : decodeBalance s = Except.error e) : e.rawResponse = s := by
  unfold decodeBalance at h
  split at h
  · simp at h
  · rw [Except.error.injEq] at h
    subst h
    rfl

theorem decodeNumber_error_raw (s : Str) (e : HeroSMSError)
    (h : decodeNumber s = Except.error e) : e.rawResponse = s := by
  unfold decodeNumber at h
  split at h
  · simp at h
  · rw [Except.error.injEq] at h
    subst h
    rfl

theorem decodeStatus_error_raw (s : Str) (e : HeroSMSError)
    (h : decodeStatus s = Except.error e) : e.rawResponse = s := by
  unfold decodeStatus at h
  split_ifs at h
  all_goals (cases h; rfl)

theorem checkForErrors_banned_eq (rest : Str) :
    checkForErrors (str "BANNED:" ++ rest) =
      some (mkBannedError (str "BANNED:" ++ rest)
        (if rest.takeWhile (fun c => c != ':') = [] then str "unknown"
         else rest.takeWhile (fun c => c != ':'))) := by
  have hsplit : str "BANNED:" ++ rest = str "BANNED" ++ ':' :: rest := by
    have h0 : str "BANNED:" = str "BANNED" ++ [':'] := by decide
    rw [h0, List.append_assoc, List.singleton_append]
  have hsf : secondField (str "BANNED:" ++ rest) = rest.takeWhile (fun c => c != ':') := by
    rw [hsplit]
    exact secondField_append (str "BANNED") rest (by decide)
  have hp : (str "BANNED:").isPrefixOf (str "BANNED:" ++ rest) = true :=
    isPrefixOf_append_self _ _
  unfold checkForErrors
  rw [if_pos hp, hsf]

theorem checkForErrors_wrongMaxPrice_eq (rest : Str) :
    checkForErrors (str "WRONG_MAX_PRICE:" ++ rest) =
      some (mkWrongMaxPriceError (str "WRONG_MAX_PRICE:" ++ rest)
        (parseFloat (if rest.takeWhile (fun c => c != ':') = [] then str "0"
                     else rest.takeWhile (fun c => c != ':')))) := by
  have hnb : ¬ (str "BANNED:").isPrefixOf (str "WRONG_MAX_PRICE:" ++ rest) = true := by
    rw [isPrefixOf_append_of_le _ _ _ (by decide)]
    decide
  have hp : (str "WRONG_MAX_PRICE:").isPrefixOf (str "WRONG_MAX_PRICE:" ++ rest) = true :=
    isPrefixOf_append_self _ _
  have hsplit : str "WRONG_MAX_PRICE:" ++ rest = str "WRONG_MAX_PRICE" ++ ':' :: rest := by
    have h0 : str "WRONG_MAX_PRICE:" = str "WRONG_MAX_PRICE" ++ [':'] := by decide
    rw [h0, List.append_assoc, List.singleton_append]
  have hsf : secondField (str "WRONG_MAX_PRICE:" ++ rest) =
      rest.takeWhile (fun c => c != ':') := by
    rw [hsplit]
    exact secondField_append (str "WRONG_MAX_PRICE") rest (by decide)
  unfold checkForErrors
  rw [if_neg hnb, if_pos hp, hsf]

theorem decodeStatus_ok_any (rest : Str) :
    decodeStatus (str "STATUS_OK:" ++ rest) =
      Except.ok ⟨StatusVariant.statusOk, some (rest.takeWhile (fun c => c != ':'))⟩ := by
  have hp : (str "STATUS_OK:").isPrefixOf (str "STATUS_OK:" ++ rest) = true :=
    isPrefixOf_append_self _ _
  have hsplit : str "STATUS_OK:" ++ rest = str "STATUS_OK" ++ ':' :: rest := by
    have h0 : str "STATUS_OK:" = str "STATUS_OK" ++ [':'] := by decide
    rw [h0, List.append_assoc, List.singleton_append]
  have hg : (jsSplit ':' (str "STATUS_OK:" ++ rest))[1]? =
      some (rest.takeWhile (fun c => c != ':')) := by
    rw [hsplit]
    exact jsSplit_get1 (str "STATUS_OK") rest (by decide)
  unfold decodeStatus
  rw [if_pos hp, hg]

theorem decodeStatus_waitRetry_any (rest : Str) :
    decodeStatus (str "STATUS_WAIT_RETRY:" ++ rest) =
      Except.ok ⟨StatusVariant.statusWaitRetry, some (rest.takeWhile (fun c => c != ':'))⟩ := by
  have hn1 : ¬ (str "STATUS_OK:").isPrefixOf (str "STATUS_WAIT_RETRY:" ++ rest) = true := by
    rw [isPrefixOf_append_of_le _ _ _ (by decide)]
    decide
  have hp : (str "STATUS_WAIT_RETRY:").isPrefixOf (str "STATUS_WAIT_RETRY:" ++ rest) = true :=
    isPrefixOf_append_self _ _
  have hsplit : str "STATUS_WAIT_RETRY:" ++ rest = str "STATUS_WAIT_RETRY" ++ ':' :: rest := by
    have h0 : str "STATUS_WAIT_RETRY:" = str "STATUS_WAIT_RETRY" ++ [':'] := by decide
    rw [h0, List.append_assoc, List.singleton_append]
  have hg : (jsSplit ':' (str "STATUS_WAIT_RETRY:" ++ rest))[1]? =
      some (rest.takeWhile (fun c => c != ':')) := by
    rw [hsplit]
    exact jsSplit_get1 (str "STATUS_WAIT_RETRY") rest (by decide)
  unfold decodeStatus
  rw [if_neg hn1, if_pos hp, hg]

theorem decodeStatus_error_eq (s : Str)
    (h1 : (str "STATUS_OK:").isPrefixOf s = false)
    (h2 : (str "STATUS_WAIT_RETRY:").isPrefixOf s = false)
    (h3 : s ≠ str "STATUS_WAIT_CODE")
    (h4 : s ≠ str "STATUS_WAIT_RESEND")
    (h5 : s ≠ str "STATUS_CANCEL") :
    decodeStatus s = Except.error (mkHeroSMSError (str "PARSE_ERROR")
      (str "Unexpected status response: " ++ s) s) := by
  unfold decodeStatus
  rw [if_neg (by simp [h1]), if_neg (by simp [h2]), if_neg h3, if_neg h4, if_neg h5]

/-! ### The claims -/

/-- C1 (code bug): the claim says a body equal to any of the fourteen
plain codes classifies to the error kind of that code, and in particular
`NO_ACTIVATIONS` must classify to the generic `NO_ACTIVATIONS` error and
never to the `NO_ACTIVATION` not-found kind.  The code scans the list in
declaration order with prefix matching, `NO_ACTIVATION` sits before
`NO_ACTIVATIONS`, and `NO_ACTIVATIONS` starts with `NO_ACTIVATION`, so
the body `NO_ACTIVATIONS` is classified as an `ActivationNotFoundError`
with code `NO_ACTIVATION`; the dedicated `NO_ACTIVATIONS` table entry is
unreachable. -/
theorem claim1_noActivations_misclassified :
    checkForErrors (str "NO_ACTIVATIONS") =
      some (mkActivationNotFoundError (str "NO_ACTIVATIONS")) ∧
    (mkActivationNotFoundError (str "NO_ACTIVATIONS")).code = str "NO_ACTIVATION" ∧
    (mkActivationNotFoundError (str "NO_ACTIVATIONS")).name = str "ActivationNotFoundError" ∧
    str "NO_ACTIVATION" ≠ str "NO_ACTIVATIONS" ∧
    ERROR_MESSAGES (str "NO_ACTIVATIONS") = some (str "No activations found") :=
  ⟨by decide, by decide, by decide, by decide, by decide⟩

/-- C2 counterexample: the claim says an unparsable second field yields
minimum price 0, but `parseFloat` on the field `abc` is NaN, not 0. -/
theorem claim2_counterexample :
    checkForErrors (str "WRONG_MAX_PRICE:abc") =
      some (mkWrongMaxPriceError (str "WRONG_MAX_PRICE:abc") JsNum.nan) ∧
    JsNum.nan ≠ JsNum.num (mkRat 0 1) :=
  ⟨by decide, by decide⟩

/-- C2 (amended): every body starting with `WRONG_MAX_PRICE:` classifies
to a WrongMaxPrice error whose minimum price is `parseFloat` of the second
colon-delimited field, with the literal `0` substituted only when that
field is missing or empty; so the value is 0 for a missing field, 1.5 for
`1.5`, and NaN for a non-empty unparsable field such as `abc`. -/
theorem claim2_amended :
    (∀ rest : Str, checkForErrors (str "WRONG_MAX_PRICE:" ++ rest) =
      some (mkWrongMaxPriceError (str "WRONG_MAX_PRICE:" ++ rest)
        (parseFloat (if rest.takeWhile (fun c => c != ':') = [] then str "0"
                     else rest.takeWhile (fun c => c != ':'))))) ∧
    parseFloat (str "1.5") = JsNum.num (mkRat 3 2) ∧
    parseFloat (str "abc") = JsNum.nan ∧
    parseFloat (str "0") = JsNum.num (mkRat 0 1) ∧
    checkForErrors (str "WRONG_MAX_PRICE:1.5") =
      some (mkWrongMaxPriceError (str "WRONG_MAX_PRICE:1.5") (JsNum.num (mkRat 3 2))) ∧
    checkForErrors (str "WRONG_MAX_PRICE:") =
      some (mkWrongMaxPriceError (str "WRONG_MAX_PRICE:") (JsNum.num (mkRat 0 1))) :=
  ⟨checkForErrors_wrongMaxPrice_eq, by decide, by decide, by decide, by decide, by decide⟩

/-- C3 counterexample: the claim says decoding succeeds exactly on bodies
matching `ACCESS_BALANCE:<float>`, but the regex is unanchored and its
capture is not restricted to floats: `ACCESS_BALANCE:abc` (not a float)
decodes successfully to NaN, and `xxACCESS_BALANCE:1.5` (not of the
grammar) decodes successfully to 1.5. -/
theorem claim3_counterexample :
    balanceGrammar (str "ACCESS_BALANCE:abc") = false ∧
    decodeBalance (str "ACCESS_BALANCE:abc") = Except.ok JsNum.nan ∧
    balanceGrammar (str "xxACCESS_BALANCE:1.5") = false ∧
    decodeBalance (str "xxACCESS_BALANCE:1.5") = Except.ok (JsNum.num (mkRat 3 2)) :=
  ⟨by decide, by decide, by decide, by decide⟩

/-- C3 (amended): decoding a balance response succeeds, returning
`parseFloat` of the captured text (which may be NaN), exactly when the
body contains an occurrence of `ACCESS_BALANCE:` followed by at least one
non-line-terminator character; every other body yields the PARSE_ERROR
Typed Error carrying the raw body.  `ACCESS_BALANCE:150.5` decodes to
150.5 and `ACCESS_BALANCE:` decodes to a ParseError. -/
theorem claim3_amended :
    (∀ rest : Str, rest ≠ [] → (∀ c ∈ rest, isLineTerm c = false) →
      decodeBalance (litBalance ++ rest) = Except.ok (parseFloat rest)) ∧
    (∀ s : Str, (∃ v, decodeBalance s = Except.ok v) ↔
      ∃ pre rest, s = pre ++ (litBalance ++ rest) ∧
        rest.takeWhile (fun c => !isLineTerm c) ≠ []) ∧
    decodeBalance (str "ACCESS_BALANCE:150.5") = Except.ok (JsNum.num (mkRat 301 2)) ∧
    decodeBalance (str "ACCESS_BALANCE:") =
      Except.error (mkHeroSMSError (str "PARSE_ERROR")
        (str "Unexpected balance response: " ++ str "ACCESS_BALANCE:")
        (str "ACCESS_BALANCE:")) := by
  refine ⟨?_, decodeBalance_ok_iff, by decide, by decide⟩
  intro rest h1 h2
  unfold decodeBalance
  rw [matchBalance_at_zero rest h1 h2]

/-- C3 witness: the positive branch of the amended claim applied to the
concrete suffix `1`. -/
theorem claim3_witness :
    decodeBalance (litBalance ++ str "1") = Except.ok (parseFloat (str "1")) :=
  claim3_amended.1 (str "1") (by decide) (by decide)

/-- C4 counterexample: the claim says a body of the shape
`STATUS_OK:<code>` yields the OK variant carrying the code and every body
outside the five shapes yields a ParseError; on `STATUS_OK:48:15` the
code carries only `48`, the first colon-delimited field, and no
ParseError is produced. -/
theorem claim4_counterexample :
    decodeStatus (str "STATUS_OK:48:15") =
      Except.ok ⟨StatusVariant.statusOk, some (str "48")⟩ ∧
    str "48" ≠ str "48:15" ∧
    decodeStatus (str "STATUS_OK:48:15") ≠
      Except.ok ⟨StatusVariant.statusOk, some (str "48:15")⟩ :=
  ⟨by decide, by decide, by decide⟩

/-- C4 (amended): a body `STATUS_OK:<rest>` yields the OK variant
carrying the first colon-delimited field of `<rest>` (equal to `<rest>`
itself when `<rest>` is colon-free), likewise `STATUS_WAIT_RETRY:<rest>`;
the exact bodies `STATUS_WAIT_CODE`, `STATUS_WAIT_RESEND` and
`STATUS_CANCEL` yield their variants with no code field present (`none`,
not an empty string); every body that starts with neither prefix and
equals none of the three exact tokens yields a ParseError. -/
theorem claim4_amended :
    (∀ rest : Str, decodeStatus (str "STATUS_OK:" ++ rest) =
      Except.ok ⟨StatusVariant.statusOk, some (rest.takeWhile (fun c => c != ':'))⟩) ∧
    (∀ rest : Str, decodeStatus (str "STATUS_WAIT_RETRY:" ++ rest) =
      Except.ok ⟨StatusVariant.statusWaitRetry, some (rest.takeWhile (fun c => c != ':'))⟩) ∧
    decodeStatus (str "STATUS_WAIT_CODE") = Except.ok ⟨StatusVariant.statusWaitCode, none⟩ ∧
    decodeStatus (str "STATUS_WAIT_RESEND") = Except.ok ⟨StatusVariant.statusWaitResend, none⟩ ∧
    decodeStatus (str "STATUS_CANCEL") = Except.ok ⟨StatusVariant.statusCancel, none⟩ ∧
    (∀ s : Str, (str "STATUS_OK:").isPrefixOf s = false →
      (str "STATUS_WAIT_RETRY:").isPrefixOf s = false →
      s ≠ str "STATUS_WAIT_CODE" → s ≠ str "STATUS_WAIT_RESEND" → s ≠ str "STATUS_CANCEL" →
      decodeStatus s = Except.error (mkHeroSMSError (str "PARSE_ERROR")
        (str "Unexpected status response: " ++ s) s)) :=
  ⟨decodeStatus_ok_any, decodeStatus_waitRetry_any, by decide, by decide, by decide,
   decodeStatus_error_eq⟩

/-- C4 witness: the ParseError branch of the amended claim applied to the
concrete body `garbage`. -/
theorem claim4_witness :
    decodeStatus (str "garbage") = Except.error (mkHeroSMSError (str "PARSE_ERROR")
      (str "Unexpected status response: " ++ str "garbage") (str "garbage")) :=
  claim4_amended.2.2.2.2.2 (str "garbage") (by decide) (by decide) (by decide)
    (by decide) (by decide)

/-- C5 counterexample: the claim says decoding succeeds exactly on bodies
matching `ACCESS_NUMBER:<digits>:<rest>`, but the regex is unanchored:
`xACCESS_NUMBER:1:2`, which is not of that shape, decodes successfully. -/
theorem claim5_counterexample :
    numberGrammar (str "xACCESS_NUMBER:1:2") = false ∧
    decodeNumber (str "xACCESS_NUMBER:1:2") = Except.ok ⟨1, str "2"⟩ :=
  ⟨by decide, by decide⟩

/-- C5 (amended): decoding a number-allocation (v1) response succeeds
exactly when the body contains an occurrence of `ACCESS_NUMBER:` followed
by one or more digits, a colon, and at least one non-line-terminator
character; on a whole-body match `ACCESS_NUMBER:<digits>:<rest>` with
`<rest>` nonempty and line-terminator-free the result carries the digits
parsed as an integer and `<rest>` verbatim (colons included). -/
theorem claim5_amended :
    (∀ digits phone : Str, digits ≠ [] → (∀ c ∈ digits, c.isDigit = true) →
      phone ≠ [] → (∀ c ∈ phone, isLineTerm c = false) →
      decodeNumber (litNumber ++ (digits ++ ':' :: phone)) =
        Except.ok ⟨digitsToNat digits, phone⟩) ∧
    (∀ s : Str, (∃ v, decodeNumber s = Except.ok v) ↔
      ∃ pre digits rest, s = pre ++ (litNumber ++ (digits ++ ':' :: rest)) ∧
        digits ≠ [] ∧ (∀ c ∈ digits, c.isDigit = true) ∧
        rest.takeWhile (fun c => !isLineTerm c) ≠ []) ∧
    decodeNumber (str "ACCESS_NUMBER:123456:79001234567") =
      Except.ok ⟨123456, str "79001234567"⟩ ∧
    decodeNumber (str "ACCESS_NUMBER:12:a:b") = Except.ok ⟨12, str "a:b"⟩ := by
  refine ⟨?_, decodeNumber_ok_iff, by decide, by decide⟩
  intro digits phone hd1 hd2 hp1 hp2
  unfold decodeNumber
  rw [matchNumber_at_zero digits phone hd1 hd2 hp1 hp2]

/-- C5 witness: the positive branch of the amended claim applied to the
concrete digits `7` and phone `9`. -/
theorem claim5_witness :
    decodeNumber (litNumber ++ (str "7" ++ ':' :: str "9")) =
      Except.ok ⟨digitsToNat (str "7"), str "9"⟩ :=
  claim5_amended.1 (str "7") (str "9") (by decide) (by decide) (by decide) (by decide)

/-- C6: every body starting with `BANNED:` classifies to a Banned error
whose payload is the second colon-delimited field of the body, with the
literal `unknown` substituted when that field is empty; in particular
`BANNED:2024-01-01` yields payload `2024-01-01` and `BANNED:` yields
payload `unknown`. -/
theorem claim6_banned_payload :
    (∀ rest : Str, checkForErrors (str "BANNED:" ++ rest) =
      some (mkBannedError (str "BANNED:" ++ rest)
        (if rest.takeWhile (fun c => c != ':') = [] then str "unknown"
         else rest.takeWhile (fun c => c != ':')))) ∧
    checkForErrors (str "BANNED:2024-01-01") =
      some (mkBannedError (str "BANNED:2024-01-01") (str "2024-01-01")) ∧
    checkForErrors (str "BANNED:") = some (mkBannedError (str "BANNED:") (str "unknown")) :=
  ⟨checkForErrors_banned_eq, by decide, by decide⟩

/-- C7: every error produced by the classifier carries the exact raw body
in `rawResponse`, and the two parameterized families additionally carry
their payload (`bannedUntil`, `minimumPrice`); every ParseError produced
by the balance, number and status decoders also carries the exact raw
body. -/
theorem claim7_raw_retained :
    (∀ (s : Str) (e : HeroSMSError), checkForErrors s = some e →
      e.rawResponse = s ∧
      (e.name = str "BannedError" → e.bannedUntil.isSome = true) ∧
      (e.name = str "WrongMaxPriceError" → e.minimumPrice.isSome = true)) ∧
    (∀ (s : Str) (e : HeroSMSError), decodeBalance s = Except.error e → e.rawResponse = s) ∧
    (∀ (s : Str) (e : HeroSMSError), decodeNumber s = Except.error e → e.rawResponse = s) ∧
    (∀ (s : Str) (e : HeroSMSError), decodeStatus s = Except.error e → e.rawResponse = s) :=
  ⟨checkForErrors_fields, decodeBalance_error_raw, decodeNumber_error_raw,
   decodeStatus_error_raw⟩

/-- C7 witness: the classifier conjunct applied to the concrete body
`BANNED:x`. -/
theorem claim7_witness :
    (mkBannedError (str "BANNED:x") (str "x")).rawResponse = str "BANNED:x" ∧
    ((mkBannedError (str "BANNED:x") (str "x")).name = str "BannedError" →
      (mkBannedError (str "BANNED:x") (str "x")).bannedUntil.isSome = true) ∧
    ((mkBannedError (str "BANNED:x") (str "x")).name = str "WrongMaxPriceError" →
      (mkBannedError (str "BANNED:x") (str "x")).minimumPrice.isSome = true) :=
  claim7_raw_retained.1 (str "BANNED:x") (mkBannedError (str "BANNED:x") (str "x")) (by decide)

/-- C8: a non-string (already-structured) body is never error-checked and
is returned to the caller unchanged; in particular the structured
endpoint result types of `getNumberV2` and `getStatusV2` pass through as
an identity. -/
theorem claim8_structured_passthrough :
    (∀ (α : Type) (v : α), requestClassify (RawBody.structured v) =
      Except.ok (RawBody.structured v)) ∧
    (∀ v : GetNumberV2Response, requestClassify (RawBody.structured v) =
      Except.ok (RawBody.structured v)) ∧
    (∀ v : ActivationStatusV2, requestClassify (RawBody.structured v) =
      Except.ok (RawBody.structured v)) :=
  ⟨fun _ _ => rfl, fun _ => rfl, fun _ => rfl⟩

/-- C9: classification never alters a successful string body: whatever
`request` returns successfully is the transport string itself, character
for character, and the decoder composed after a successful classification
receives exactly that string. -/
theorem claim9_classification_preserves_body :
    (∀ (s r : Str), requestString s = Except.ok r → r = s) ∧
    (∀ (β : Type) (dec : Str → Except HeroSMSError β) (s : Str),
      checkForErrors s = none → (requestString s).bind dec = dec s) ∧
    (∀ (α : Type) (s : Str) (b : RawBody α),
      requestClassify (RawBody.text s) = Except.ok b → b = RawBody.text s) := by
  refine ⟨?_, ?_, ?_⟩
  · intro s r h
    unfold requestString at h
    split at h
    · cases h
    · cases h; rfl
  · intro β dec s h
    unfold requestString
    rw [h]
    rfl
  · intro α s b h
    have h2 : (match checkForErrors s with
        | some e => Except.error e
        | none => Except.ok (RawBody.text s) : Except HeroSMSError (RawBody α)) =
        Except.ok b := h
    cases hc : checkForErrors s with
    | some e => rw [hc] at h2; cases h2
    | none => rw [hc] at h2; cases h2; rfl

/-- C9 witness: the composition conjunct applied to the concrete
successful body `ACCESS_BALANCE:1`. -/
theorem claim9_witness :
    (requestString (str "ACCESS_BALANCE:1")).bind decodeBalance =
      decodeBalance (str "ACCESS_BALANCE:1") :=
  claim9_classification_preserves_body.2.1 JsNum decodeBalance
    (str "ACCESS_BALANCE:1") (by decide)

/-- C10: the bare tokens `WRONG_MAX_PRICE` and `BANNED` (no trailing
colon) are not classified as any error: both sentinel checks require the
colon, `WRONG_MAX_PRICE` is absent from the fourteen-code list, and
neither bare token starts with any listed code, so both bodies pass
classification unchanged and flow to the result decoder. -/
theorem claim10_bare_tokens_not_errors :
    checkForErrors (str "WRONG_MAX_PRICE") = none ∧
    checkForErrors (str "BANNED") = none ∧
    (str "WRONG_MAX_PRICE") ∉ errorCodes ∧
    requestString (str "WRONG_MAX_PRICE") = Except.ok (str "WRONG_MAX_PRICE") ∧
    requestString (str "BANNED") = Except.ok (str "BANNED") :=
  ⟨by decide, by decide, by decide, by decide, by decide⟩

end HeroSMS
